import Mathlib

/-!
Verification of the pagination-and-filtering query layer and the
referential-integrity-aware mutation operations of the Wigest CRUD backend
(`database.py`, `main.py`, `models.py`).

The relational store is modelled as an explicit record of tables (lists of
rows).  Each repository function of `database.py` is translated into a Lean
function over that record; the connection/cursor context manager
`get_db_cursor` becomes the combinator `withCursor`, which also counts how
many cursor contexts (units of work) a repository call opens.  The HTTP
handlers of `main.py` are translated into functions returning
`Except HTTPError`, with their blanket `except Exception` clause modelled by
`wrap500`.  SQL text construction is modelled verbatim on strings, and SQL
evaluation (joins, WHERE filters, LIMIT/OFFSET) on the table lists.

Numeric conventions: ids are `Int` (Python ints); `montant` is a numeric
amount modelled as `Int` (the claims depend only on equality of amounts);
dates are `(year, month, day)` triples of naturals, and the `YYYY-MM` month
filter string is modelled by the `(year, month)` pair it denotes
(PostgreSQL TO_CHAR with format YYYY-MM extracts exactly that pair).
-/

/-- A calendar date, modelling a SQL `date` value (`YYYY-MM-DD`). -/
structure Date where
  year : Nat
  month : Nat
  day : Nat
deriving DecidableEq

/-- Model of TO_CHAR(d, \x27YYYY-MM\x27): the year-month component of a date. -/
def Date.yearMonth (d : Date) : Nat × Nat := (d.year, d.month)

/-- Linear key realising SQL ordering on dates (ORDER BY ... DESC). -/
def Date.key (d : Date) : Nat := d.year * 10000 + d.month * 100 + d.day

/-- Row of the `clients` table. -/
structure Client where
  id : Int
  nom : String
  email : String
deriving DecidableEq

/-- Row of the `offres` table (`debit_mbps` and `prix` are nullable). -/
structure Offre where
  id : Int
  nom : String
  debit_mbps : Option Int
  prix : Option Int
deriving DecidableEq

/-- Row of the `abonnements` table (`date_fin` is nullable). -/
structure Abonnement where
  id : Int
  client_id : Int
  offre_id : Int
  date_debut : Date
  date_fin : Option Date
deriving DecidableEq

/-- Row of the `paiements` table. -/
structure Paiement where
  id : Int
  abonnement_id : Int
  montant : Int
  date_paiement : Date
deriving DecidableEq

/-- Row of the `logs` table (`date_action` as an abstract timestamp). -/
structure LogRow where
  id : Int
  table_modifiee : String
  action : String
  date_action : Nat
deriving DecidableEq

/-- The relational store: the five tables consumed by the repository. -/
structure DB where
  clients : List Client
  offres : List Offre
  abonnements : List Abonnement
  paiements : List Paiement
  logs : List LogRow
deriving DecidableEq

/-- Joined subscription row: `SELECT a.*, c.nom as client_nom, o.nom as offre_nom`. -/
structure AbonnementDetail where
  id : Int
  client_id : Int
  offre_id : Int
  date_debut : Date
  date_fin : Option Date
  client_nom : String
  offre_nom : String
deriving DecidableEq

/-- Joined payment row: `SELECT p.*, c.nom as client_nom, o.nom as offre_nom`. -/
structure PaiementDetail where
  id : Int
  abonnement_id : Int
  montant : Int
  date_paiement : Date
  client_nom : String
  offre_nom : String
deriving DecidableEq

/-- The pagination metadata dict `{total, page, limit, pages}`. -/
structure PaginationMeta where
  total : Nat
  page : Nat
  limit : Nat
  pages : Nat
deriving DecidableEq

/-- Python truthiness of an optional int parameter (`if client_id:`):
`None` and `0` are falsy. -/
def truthyInt : Option Int → Bool
  | none => false
  | some n => n != 0

/-- Python truthiness of an optional string parameter (`if search:`):
`None` and `""` are falsy. -/
def truthyStr : Option String → Bool
  | none => false
  | some s => s != ""

/-- Truthiness of the optional month filter. The `YYYY-MM` string is modelled
by the `(year, month)` pair it denotes, so only presence is observable. -/
def truthyYM : Option (Nat × Nat) → Bool
  | none => false
  | some _ => true

/-- Model of Python `math.ceil(total / limit)` on exact (non-float) division. -/
def ceilDiv (a b : Nat) : Nat := (a + b - 1) / b

/-- `paginate_query` (database.py:39-76).  The answer of the store to the
count query is `count`; its answer to the data query is the ordered row list
`rows`; `LIMIT %s OFFSET %s` is take/drop with `offset = (page - 1) * limit`;
the metadata is `{total, page, limit, pages}` with
`pages = math.ceil(total / limit) if total > 0 else 1`. -/
def paginate_query (rows : List α) (count : Nat) (page limit : Nat) :
    List α × PaginationMeta :=
  let offset := (page - 1) * limit
  ((rows.drop offset).take limit,
    { total := count, page := page, limit := limit,
      pages := if 0 < count then ceilDiv count limit else 1 })

/-- A bound SQL parameter (psycopg2 `%s` placeholder value). -/
inductive Param where
  | int (n : Int)
  | str (s : String)
deriving DecidableEq

/-- One `if <filter>:` block of a listing function: append the same clause to
the data query and to the count query, and the parameters of the clause to the
single shared parameter list. -/
def addClause (cond : Bool) (clause : String) (ps : List Param)
    (st : String × String × List Param) : String × String × List Param :=
  if cond then (st.1 ++ clause, st.2.1 ++ clause, st.2.2 ++ ps) else st

/-- Query text construction of `get_clients` (database.py:79-92). -/
def get_clients_queries (search : Option String) : String × String × List Param :=
  let st := ("SELECT * FROM clients", "SELECT COUNT(*) as count FROM clients",
    ([] : List Param))
  let st := addClause (truthyStr search) " WHERE nom ILIKE %s OR email ILIKE %s"
    [Param.str ("%" ++ search.getD "" ++ "%"), Param.str ("%" ++ search.getD "" ++ "%")] st
  (st.1 ++ " ORDER BY id DESC", st.2.1, st.2.2)

/-- Query text construction of `get_offres` (database.py:125-138). -/
def get_offres_queries (search : Option String) : String × String × List Param :=
  let st := ("SELECT * FROM offres", "SELECT COUNT(*) as count FROM offres",
    ([] : List Param))
  let st := addClause (truthyStr search) " WHERE nom ILIKE %s"
    [Param.str ("%" ++ search.getD "" ++ "%")] st
  (st.1 ++ " ORDER BY id DESC", st.2.1, st.2.2)

/-- Base data query of `get_abonnements` (whitespace normalised). -/
def abonBaseQuery : String :=
  "SELECT a.*, c.nom as client_nom, o.nom as offre_nom FROM abonnements a JOIN clients c ON a.client_id = c.id JOIN offres o ON a.offre_id = o.id WHERE 1=1"

/-- Base count query of `get_abonnements` (whitespace normalised). -/
def abonBaseCount : String :=
  "SELECT COUNT(*) as count FROM abonnements a JOIN clients c ON a.client_id = c.id JOIN offres o ON a.offre_id = o.id WHERE 1=1"

/-- Query text construction of `get_abonnements` (database.py:176-217).
The `mois` parameter is the raw `YYYY-MM` string at this (SQL-text) level. -/
def get_abonnements_queries (client_id offre_id : Option Int)
    (mois : Option String) : String × String × List Param :=
  let st := (abonBaseQuery, abonBaseCount, ([] : List Param))
  let st := addClause (truthyInt client_id) " AND a.client_id = %s"
    [Param.int (client_id.getD 0)] st
  let st := addClause (truthyInt offre_id) " AND a.offre_id = %s"
    [Param.int (offre_id.getD 0)] st
  let st := addClause (truthyStr mois) " AND TO_CHAR(a.date_debut, \x27YYYY-MM\x27) = %s"
    [Param.str (mois.getD "")] st
  (st.1 ++ " ORDER BY a.date_debut DESC", st.2.1, st.2.2)

/-- Base data query of `get_paiements` (whitespace normalised). -/
def paiementBaseQuery : String :=
  "SELECT p.*, c.nom as client_nom, o.nom as offre_nom FROM paiements p JOIN abonnements a ON p.abonnement_id = a.id JOIN clients c ON a.client_id = c.id JOIN offres o ON a.offre_id = o.id WHERE 1=1"

/-- Base count query of `get_paiements` (whitespace normalised). -/
def paiementBaseCount : String :=
  "SELECT COUNT(*) as count FROM paiements p JOIN abonnements a ON p.abonnement_id = a.id JOIN clients c ON a.client_id = c.id JOIN offres o ON a.offre_id = o.id WHERE 1=1"

/-- Query text construction of `get_paiements` (database.py:309-358). -/
def get_paiements_queries (abonnement_id client_id offre_id : Option Int)
    (mois : Option String) : String × String × List Param :=
  let st := (paiementBaseQuery, paiementBaseCount, ([] : List Param))
  let st := addClause (truthyInt abonnement_id) " AND p.abonnement_id = %s"
    [Param.int (abonnement_id.getD 0)] st
  let st := addClause (truthyInt client_id) " AND a.client_id = %s"
    [Param.int (client_id.getD 0)] st
  let st := addClause (truthyInt offre_id) " AND a.offre_id = %s"
    [Param.int (offre_id.getD 0)] st
  let st := addClause (truthyStr mois) " AND TO_CHAR(p.date_paiement, \x27YYYY-MM\x27) = %s"
    [Param.str (mois.getD "")] st
  (st.1 ++ " ORDER BY p.date_paiement DESC", st.2.1, st.2.2)

/-- Query text construction of `get_logs` (database.py:442-455). -/
def get_logs_queries (table : Option String) : String × String × List Param :=
  let st := ("SELECT * FROM logs", "SELECT COUNT(*) as count FROM logs",
    ([] : List Param))
  let st := addClause (truthyStr table) " WHERE table_modifiee = %s"
    [Param.str (table.getD "")] st
  (st.1 ++ " ORDER BY date_action DESC", st.2.1, st.2.2)

/-- The pagination suffix of `paginate_query` (database.py:61-62): the data
query is extended with `LIMIT %s OFFSET %s` and the shared parameter list
with `[limit, offset]` at the end. -/
def paginate_build (query : String) (params : List Param) (page limit : Nat) :
    String × List Param :=
  let offset := (page - 1) * limit
  (query ++ " LIMIT %s OFFSET %s",
    params ++ [Param.int (Int.ofNat limit), Param.int (Int.ofNat offset)])

/-- `SELECT * FROM clients WHERE id = %s` (first match). -/
def findClient (db : DB) (client_id : Int) : Option Client :=
  db.clients.find? (fun c => c.id == client_id)

/-- `SELECT * FROM offres WHERE id = %s` (first match). -/
def findOffre (db : DB) (offre_id : Int) : Option Offre :=
  db.offres.find? (fun o => o.id == offre_id)

/-- `SELECT * FROM abonnements WHERE id = %s` (first match). -/
def findAbonnement (db : DB) (abonnement_id : Int) : Option Abonnement :=
  db.abonnements.find? (fun a => a.id == abonnement_id)

/-- The WHERE predicate of `get_abonnements` (database.py:200-213): each
filter clause applies only when the parameter is truthy. -/
def abonFilter (client_id offre_id : Option Int) (mois : Option (Nat × Nat))
    (a : Abonnement) : Bool :=
  (if truthyInt client_id then a.client_id == client_id.getD 0 else true) &&
  (if truthyInt offre_id then a.offre_id == offre_id.getD 0 else true) &&
  (if truthyYM mois then a.date_debut.yearMonth == mois.getD (0, 0) else true)

/-- The inner joins of `get_abonnements`: a subscription row joined with its
client and offer rows (absent join partners drop the row). -/
def abonJoin (db : DB) (a : Abonnement) : Option AbonnementDetail :=
  match findClient db a.client_id, findOffre db a.offre_id with
  | some c, some o =>
      some ⟨a.id, a.client_id, a.offre_id, a.date_debut, a.date_fin, c.nom, o.nom⟩
  | _, _ => none

/-- All rows matching the `get_abonnements` count query (same joins, same
WHERE predicate, no ORDER BY / LIMIT / OFFSET). -/
def get_abonnements_matching (db : DB) (client_id offre_id : Option Int)
    (mois : Option (Nat × Nat)) : List AbonnementDetail :=
  (db.abonnements.filter (abonFilter client_id offre_id mois)).filterMap (abonJoin db)

/-- Insertion step of the descending sort modelling `ORDER BY ... DESC`. -/
def insertByKeyDesc (key : α → Nat) (x : α) : List α → List α
  | [] => [x]
  | y :: ys => if key y ≤ key x then x :: y :: ys else y :: insertByKeyDesc key x ys

/-- Descending sort modelling `ORDER BY ... DESC` on a numeric key. -/
def sortByKeyDesc (key : α → Nat) : List α → List α
  | [] => []
  | x :: xs => insertByKeyDesc key x (sortByKeyDesc key xs)

/-- `get_abonnements` (database.py:176-217): count query and data query share
the predicate of `get_abonnements_matching`; the data query adds
`ORDER BY a.date_debut DESC` and the pagination window. -/
def get_abonnements (db : DB) (client_id offre_id : Option Int)
    (mois : Option (Nat × Nat)) (page limit : Nat) :
    List AbonnementDetail × PaginationMeta :=
  let matching := get_abonnements_matching db client_id offre_id mois
  paginate_query (sortByKeyDesc (fun r => r.date_debut.key) matching)
    matching.length page limit

/-- The two-hop join of `get_paiements`: a payment row joined with its
subscription, client and offer rows. -/
def paiementJoin (db : DB) (p : Paiement) :
    Option (Paiement × Abonnement × Client × Offre) :=
  match findAbonnement db p.abonnement_id with
  | none => none
  | some a =>
      match findClient db a.client_id, findOffre db a.offre_id with
      | some c, some o => some (p, a, c, o)
      | _, _ => none

/-- The WHERE predicate of `get_paiements` (database.py:336-354) over the
joined row: `p.abonnement_id`, `a.client_id`, `a.offre_id`,
`TO_CHAR(p.date_paiement, YYYY-MM)`. -/
def paiementFilter (abonnement_id client_id offre_id : Option Int)
    (mois : Option (Nat × Nat)) (j : Paiement × Abonnement × Client × Offre) : Bool :=
  (if truthyInt abonnement_id then j.1.abonnement_id == abonnement_id.getD 0 else true) &&
  (if truthyInt client_id then j.2.1.client_id == client_id.getD 0 else true) &&
  (if truthyInt offre_id then j.2.1.offre_id == offre_id.getD 0 else true) &&
  (if truthyYM mois then j.1.date_paiement.yearMonth == mois.getD (0, 0) else true)

/-- Projection `SELECT p.*, c.nom as client_nom, o.nom as offre_nom`. -/
def paiementProj (j : Paiement × Abonnement × Client × Offre) : PaiementDetail :=
  ⟨j.1.id, j.1.abonnement_id, j.1.montant, j.1.date_paiement, j.2.2.1.nom, j.2.2.2.nom⟩

/-- All rows matching the `get_paiements` count query (same joins, same
WHERE predicate, no ORDER BY / LIMIT / OFFSET). -/
def get_paiements_matching (db : DB) (abonnement_id client_id offre_id : Option Int)
    (mois : Option (Nat × Nat)) : List PaiementDetail :=
  (((db.paiements.filterMap (paiementJoin db)).filter
      (paiementFilter abonnement_id client_id offre_id mois)).map paiementProj)

/-- `get_paiements` (database.py:309-358). -/
def get_paiements (db : DB) (abonnement_id client_id offre_id : Option Int)
    (mois : Option (Nat × Nat)) (page limit : Nat) :
    List PaiementDetail × PaginationMeta :=
  let matching := get_paiements_matching db abonnement_id client_id offre_id mois
  paginate_query (sortByKeyDesc (fun r => r.date_paiement.key) matching)
    matching.length page limit

/-- A store-level failure message (psycopg2 exception). -/
abbrev Err := String

/-- `get_db_cursor` (database.py:24-37): one unit of work.  The body runs
against the connection; on success with `commit=True` the changes are
committed, on success without commit closing the connection discards them,
and on any exception the transaction is rolled back (`conn.rollback()`)
before the exception propagates.  The third component counts this as one
cursor context (one unit of work). -/
def withCursor (commit : Bool) (body : DB → Except Err (α × DB)) (db : DB) :
    Except Err α × DB × Nat :=
  match body db with
  | Except.ok (a, db2) => (Except.ok a, if commit then db2 else db, 1)
  | Except.error e => (Except.error e, db, 1)

/-- Serial id generation of the store (`RETURNING *` after INSERT). -/
def nextClientId (db : DB) : Int := (db.clients.map (fun c => c.id)).foldr max 0 + 1

/-- Serial id generation of the store for `offres`. -/
def nextOffreId (db : DB) : Int := (db.offres.map (fun o => o.id)).foldr max 0 + 1

/-- Serial id generation of the store for `abonnements`. -/
def nextAbonnementId (db : DB) : Int :=
  (db.abonnements.map (fun a => a.id)).foldr max 0 + 1

/-- Serial id generation of the store for `paiements`. -/
def nextPaiementId (db : DB) : Int :=
  (db.paiements.map (fun p => p.id)).foldr max 0 + 1

/-- The follow-up read of `create_abonnement` / `update_abonnement`:
`SELECT c.nom, o.nom FROM clients c, offres o WHERE c.id = %s AND o.id = %s`.
`none` models the Python `details` being `None` (subscripting it raises). -/
def abonDetailNames (db : DB) (client_id offre_id : Int) : Option (String × String) :=
  match findClient db client_id, findOffre db offre_id with
  | some c, some o => some (c.nom, o.nom)
  | _, _ => none

/-- The follow-up read of `create_paiement` / `update_paiement`:
client and offer names reached through the abonnement row. -/
def paiementDetailNames (db : DB) (abonnement_id : Int) : Option (String × String) :=
  match findAbonnement db abonnement_id with
  | none => none
  | some a => abonDetailNames db a.client_id a.offre_id

/-- `create_client` (database.py:100-107). -/
def create_client (db : DB) (nom email : String) : Except Err Client × DB × Nat :=
  withCursor true (fun db =>
    let row : Client := ⟨nextClientId db, nom, email⟩
    Except.ok (row, { db with clients := db.clients ++ [row] })) db

/-- `update_client` (database.py:109-116): full-row UPDATE ... RETURNING *. -/
def update_client (db : DB) (client_id : Int) (nom email : String) :
    Except Err (Option Client) × DB × Nat :=
  withCursor true (fun db =>
    match db.clients.find? (fun c => c.id == client_id) with
    | none => Except.ok (none, db)
    | some _ =>
        let row : Client := ⟨client_id, nom, email⟩
        Except.ok (some row,
          { db with clients := db.clients.map (fun c => if c.id == client_id then row else c) })) db

/-- `delete_client` (database.py:118-122): unconditional delete keyed on id. -/
def delete_client (db : DB) (client_id : Int) : Except Err Bool × DB × Nat :=
  withCursor true (fun db =>
    Except.ok (db.clients.any (fun c => c.id == client_id),
      { db with clients := db.clients.filter (fun c => !(c.id == client_id)) })) db

/-- `create_offre` (database.py:146-153). -/
def create_offre (db : DB) (nom : String) (debit_mbps prix : Option Int) :
    Except Err Offre × DB × Nat :=
  withCursor true (fun db =>
    let row : Offre := ⟨nextOffreId db, nom, debit_mbps, prix⟩
    Except.ok (row, { db with offres := db.offres ++ [row] })) db

/-- `update_offre` (database.py:155-162): a full-row
`UPDATE offres SET nom = %s, debit_mbps = %s, prix = %s WHERE id = %s`
writing exactly the supplied values — there is no read of the current row,
so an omitted optional field is written as NULL. -/
def update_offre (db : DB) (offre_id : Int) (nom : String)
    (debit_mbps prix : Option Int) : Except Err (Option Offre) × DB × Nat :=
  withCursor true (fun db =>
    match db.offres.find? (fun o => o.id == offre_id) with
    | none => Except.ok (none, db)
    | some _ =>
        let row : Offre := ⟨offre_id, nom, debit_mbps, prix⟩
        Except.ok (some row,
          { db with offres := db.offres.map (fun o => if o.id == offre_id then row else o) })) db

/-- `delete_offre` (database.py:164-173): inside one cursor context, count the
subscriptions referencing the offer; if any exist return `False` without
deleting, otherwise DELETE ... RETURNING id. -/
def delete_offre (db : DB) (offre_id : Int) : Except Err Bool × DB × Nat :=
  withCursor true (fun db =>
    if 0 < (db.abonnements.filter (fun a => a.offre_id == offre_id)).length then
      Except.ok (false, db)
    else
      Except.ok (db.offres.any (fun o => o.id == offre_id),
        { db with offres := db.offres.filter (fun o => !(o.id == offre_id)) })) db

/-- `create_abonnement` (database.py:231-251): INSERT ... RETURNING * followed
in the same cursor context by the detail-name read; a missing detail row makes
the Python code raise (TypeError), modelled as a store failure. -/
def create_abonnement (db : DB) (client_id offre_id : Int) (date_debut : Date)
    (date_fin : Option Date) : Except Err AbonnementDetail × DB × Nat :=
  withCursor true (fun db =>
    let row : Abonnement := ⟨nextAbonnementId db, client_id, offre_id, date_debut, date_fin⟩
    let db2 := { db with abonnements := db.abonnements ++ [row] }
    match abonDetailNames db2 client_id offre_id with
    | some (cn, onom) =>
        Except.ok (⟨row.id, client_id, offre_id, date_debut, date_fin, cn, onom⟩, db2)
    | none => Except.error "TypeError: details is None") db

/-- `update_abonnement` (database.py:253-293): a first cursor context reads
the current row (read-before-write); omitted optional fields fall back to the
current values (`x if x is not None else current[...]`); a second cursor
context performs the full-row UPDATE and re-reads the detail names. -/
def update_abonnement (db : DB) (abonnement_id : Int) (offre_id : Option Int)
    (date_debut date_fin : Option Date) :
    Except Err (Option AbonnementDetail) × DB × Nat :=
  let r1 := withCursor false (fun db =>
    Except.ok (db.abonnements.find? (fun a => a.id == abonnement_id), db)) db
  match r1.1 with
  | Except.error e => (Except.error e, r1.2.1, r1.2.2)
  | Except.ok none => (Except.ok none, r1.2.1, r1.2.2)
  | Except.ok (some current) =>
      let new_offre_id := offre_id.getD current.offre_id
      let new_date_debut := date_debut.getD current.date_debut
      let new_date_fin := if date_fin.isSome then date_fin else current.date_fin
      let r2 := withCursor true (fun db =>
        match db.abonnements.find? (fun a => a.id == abonnement_id) with
        | none => Except.ok (none, db)
        | some cur2 =>
            let row : Abonnement :=
              ⟨abonnement_id, cur2.client_id, new_offre_id, new_date_debut, new_date_fin⟩
            let newRows := db.abonnements.map (fun a => if a.id == abonnement_id then row else a)
            let db2 := { db with abonnements := newRows }
            match abonDetailNames db2 row.client_id new_offre_id with
            | some (cn, onom) =>
                Except.ok (some ⟨row.id, row.client_id, row.offre_id, row.date_debut,
                  row.date_fin, cn, onom⟩, db2)
            | none => Except.error "TypeError: details is None") r1.2.1
      (r2.1, r2.2.1, r1.2.2 + r2.2.2)

/-- `delete_abonnement` (database.py:295-306): inside one cursor context,
count the payments referencing the subscription; if any exist return `False`
without deleting, otherwise DELETE ... RETURNING id. -/
def delete_abonnement (db : DB) (abonnement_id : Int) : Except Err Bool × DB × Nat :=
  withCursor true (fun db =>
    if 0 < (db.paiements.filter (fun p => p.abonnement_id == abonnement_id)).length then
      Except.ok (false, db)
    else
      Except.ok (db.abonnements.any (fun a => a.id == abonnement_id),
        { db with abonnements := db.abonnements.filter (fun a => !(a.id == abonnement_id)) })) db

/-- `create_paiement` (database.py:373-395). -/
def create_paiement (db : DB) (abonnement_id : Int) (montant : Int)
    (date_paiement : Date) : Except Err PaiementDetail × DB × Nat :=
  withCursor true (fun db =>
    let row : Paiement := ⟨nextPaiementId db, abonnement_id, montant, date_paiement⟩
    let db2 := { db with paiements := db.paiements ++ [row] }
    match paiementDetailNames db2 abonnement_id with
    | some (cn, onom) =>
        Except.ok (⟨row.id, abonnement_id, montant, date_paiement, cn, onom⟩, db2)
    | none => Except.error "TypeError: details is None") db

/-- `update_paiement` (database.py:397-433): read-before-write in a first
cursor context, fallback of omitted fields to the current values, full-row
UPDATE plus detail-name read in a second cursor context. -/
def update_paiement (db : DB) (paiement_id : Int) (montant : Option Int)
    (date_paiement : Option Date) : Except Err (Option PaiementDetail) × DB × Nat :=
  let r1 := withCursor false (fun db =>
    Except.ok (db.paiements.find? (fun p => p.id == paiement_id), db)) db
  match r1.1 with
  | Except.error e => (Except.error e, r1.2.1, r1.2.2)
  | Except.ok none => (Except.ok none, r1.2.1, r1.2.2)
  | Except.ok (some current) =>
      let new_montant := montant.getD current.montant
      let new_date_paiement := date_paiement.getD current.date_paiement
      let r2 := withCursor true (fun db =>
        match db.paiements.find? (fun p => p.id == paiement_id) with
        | none => Except.ok (none, db)
        | some cur2 =>
            let row : Paiement := ⟨paiement_id, cur2.abonnement_id, new_montant, new_date_paiement⟩
            let newRows := db.paiements.map (fun p => if p.id == paiement_id then row else p)
            let db2 := { db with paiements := newRows }
            match paiementDetailNames db2 row.abonnement_id with
            | some (cn, onom) =>
                Except.ok (some ⟨row.id, row.abonnement_id, row.montant,
                  row.date_paiement, cn, onom⟩, db2)
            | none => Except.error "TypeError: details is None") r1.2.1
      (r2.1, r2.2.1, r1.2.2 + r2.2.2)

/-- `delete_paiement` (database.py:435-439): unconditional delete keyed on id. -/
def delete_paiement (db : DB) (paiement_id : Int) : Except Err Bool × DB × Nat :=
  withCursor true (fun db =>
    Except.ok (db.paiements.any (fun p => p.id == paiement_id),
      { db with paiements := db.paiements.filter (fun p => !(p.id == paiement_id)) })) db

/-- Character class `[a-zA-Z0-9._%+-]` of the email regex local part. -/
def isLocalChar (c : Char) : Bool :=
  c.isAlpha || c.isDigit || c == '.' || c == '_' || c == '%' || c == '+' || c == '-'

/-- Character class `[a-zA-Z0-9.-]` of the email regex domain part. -/
def isDomainChar (c : Char) : Bool :=
  c.isAlpha || c.isDigit || c == '.' || c == '-'

/-- Greedy scan of a character class, as performed by the regex engine.
Returns the longest satisfying prefix and the remainder. -/
def spanP (p : Char → Bool) : List Char → List Char × List Char
  | [] => ([], [])
  | c :: cs =>
      if p c then
        let r := spanP p cs
        (c :: r.1, r.2)
      else ([], c :: cs)

/-- Matcher for the tail `[a-zA-Z0-9.-]+\.[a-zA-Z]\x7b2,\x7d` after the `@`,
up to the position asserted by `$`: since the final run of letters contains
no dot, the separating dot of any match is the last dot of the tail, so the
pattern is decided by splitting there. -/
def domainTailOk (m : List Char) : Bool :=
  match spanP (fun c => !(c == '.')) m.reverse with
  | (trev, c :: drev) =>
      (c == '.') && !(drev.reverse.isEmpty) && drev.reverse.all isDomainChar &&
        trev.reverse.all Char.isAlpha && decide (2 ≤ trev.reverse.length)
  | (_, []) => false

/-- Core match of the email regex of `validate_email` (models.py:8-12),
`^[a-zA-Z0-9._%+-]+@[a-zA-Z0-9.-]+\.[a-zA-Z]\x7b2,\x7d`, against the WHOLE
of `s` (the `$` position taken at the very end of `s`; `validate_email`
below adds the other position Python `$` accepts).  The `@` is in no
character class, so the local part of any match is exactly the longest local
prefix. -/
def emailOk (s : List Char) : Bool :=
  match spanP isLocalChar s with
  | (l, c :: rest) => (c == '@') && !(l.isEmpty) && domainTailOk rest
  | (_, []) => false

/-- `validate_email` (models.py:8-12) as a Boolean acceptance function
(`True` = returns the email, `False` = raises ValueError).  `re.match`
anchors the pattern at the start, and the final `$` (without re.MULTILINE)
matches at the end of the string OR just before one newline at the end of
the string, so the regex accepts a core match of the whole string or of the
string less a single trailing newline. -/
def validate_email (email : String) : Bool :=
  emailOk email.toList ||
    (email.toList.getLast? == some '\n' && emailOk email.toList.dropLast)

/-- The language the claim describes: `local-part@domain.tld` with a
nonempty local part over `[a-zA-Z0-9._%+-]`, a nonempty domain over
`[a-zA-Z0-9.-]`, and a TLD of at least two letters. -/
def EmailShape (s : List Char) : Prop :=
  ∃ l d t : List Char,
    s = l ++ '@' :: (d ++ '.' :: t) ∧
    l ≠ [] ∧ (∀ c ∈ l, isLocalChar c = true) ∧
    d ≠ [] ∧ (∀ c ∈ d, isDomainChar c = true) ∧
    (∀ c ∈ t, c.isAlpha = true) ∧ 2 ≤ t.length

/-- A FastAPI `HTTPException` (status code and detail). -/
structure HTTPError where
  status : Nat
  detail : String
deriving DecidableEq

/-- An exception inside a handler body: an `HTTPException` raised by the
handler itself, or a store-level exception. -/
inductive Exc where
  | http (e : HTTPError)
  | store (msg : String)
deriving DecidableEq

/-- Python `str(e)`: Starlette renders an `HTTPException` as
`f"\x7bstatus_code\x7d: \x7bdetail\x7d"`; a store exception renders as its
message. -/
def excStr : Exc → String
  | Exc.http e => toString e.status ++ ": " ++ e.detail
  | Exc.store m => m

/-- The blanket `except Exception as e: raise HTTPException(500, str(e))`
wrapped around every handler body in main.py.  It catches the
`HTTPException`s the body itself raised (they subclass `Exception`) and
re-raises them as status 500. -/
def wrap500 : Except Exc α → Except HTTPError α
  | Except.ok a => Except.ok a
  | Except.error e => Except.error ⟨500, excStr e⟩

/-- Detail of the 409 raised by the offer-delete endpoint. -/
def offreConflictMsg : String :=
  "Impossible de supprimer cette offre car elle est utilisée par des abonnements"

/-- Detail of the 409 raised by the subscription-delete endpoint. -/
def abonConflictMsg : String :=
  "Impossible de supprimer cet abonnement car il a des paiements associés"

/-- DELETE /offres/\x7boffre_id\x7d (main.py:177-189): inside the `try`,
`False` from the repository raises HTTPException(409, ...); the `except
Exception` clause converts any exception — including that 409 — into a 500. -/
def handler_delete_offre (db : DB) (offre_id : Int) : Except HTTPError String × DB :=
  let r := delete_offre db offre_id
  let inner : Except Exc String :=
    match r.1 with
    | Except.error e => Except.error (Exc.store e)
    | Except.ok true => Except.ok "Offre supprimée avec succès"
    | Except.ok false => Except.error (Exc.http ⟨409, offreConflictMsg⟩)
  (wrap500 inner, r.2.1)

/-- DELETE /abonnements/\x7babonnement_id\x7d (main.py:277-292). -/
def handler_delete_abonnement (db : DB) (abonnement_id : Int) :
    Except HTTPError String × DB :=
  let r := delete_abonnement db abonnement_id
  let inner : Except Exc String :=
    match r.1 with
    | Except.error e => Except.error (Exc.store e)
    | Except.ok true => Except.ok "Abonnement supprimé avec succès"
    | Except.ok false => Except.error (Exc.http ⟨409, abonConflictMsg⟩)
  (wrap500 inner, r.2.1)

/-- POST /abonnements (main.py:221-246): inside the `try`, the handler checks
that the referenced client and offer exist (404 otherwise) before calling
`db.create_abonnement`; the blanket `except Exception` wraps every raised
exception — the 404s included — into a 500. -/
def handler_create_abonnement (db : DB) (client_id offre_id : Int)
    (date_debut : Date) (date_fin : Option Date) :
    Except HTTPError AbonnementDetail × DB :=
  match findClient db client_id with
  | none => (wrap500 (Except.error (Exc.http ⟨404, "Client non trouvé"⟩)), db)
  | some _ =>
      match findOffre db offre_id with
      | none => (wrap500 (Except.error (Exc.http ⟨404, "Offre non trouvée"⟩)), db)
      | some _ =>
          let r := create_abonnement db client_id offre_id date_debut date_fin
          let inner : Except Exc AbonnementDetail :=
            match r.1 with
            | Except.ok a => Except.ok a
            | Except.error e => Except.error (Exc.store e)
          (wrap500 inner, r.2.1)

/-- PUT /abonnements/\x7babonnement_id\x7d (main.py:248-275): if an offer id
is supplied, its existence is checked (404 otherwise) before calling
`db.update_abonnement`; a `None` repository result raises 404; the blanket
`except Exception` wraps every raised exception into a 500. -/
def handler_update_abonnement (db : DB) (abonnement_id : Int)
    (offre_id : Option Int) (date_debut date_fin : Option Date) :
    Except HTTPError AbonnementDetail × DB :=
  let offreMissing :=
    match offre_id with
    | some oid => (findOffre db oid).isNone
    | none => false
  if offreMissing then
    (wrap500 (Except.error (Exc.http ⟨404, "Offre non trouvée"⟩)), db)
  else
    let r := update_abonnement db abonnement_id offre_id date_debut date_fin
    let inner : Except Exc AbonnementDetail :=
      match r.1 with
      | Except.error e => Except.error (Exc.store e)
      | Except.ok none => Except.error (Exc.http ⟨404, "Abonnement non trouvé"⟩)
      | Except.ok (some a) => Except.ok a
    (wrap500 inner, r.2.1)

/-- POST /clients (main.py:71-83) together with the pydantic validation of
`ClientCreate` (models.py:15-21): FastAPI validates the request body — which
runs `validate_email` — before the endpoint body executes, so an invalid
email is rejected with a 422 validation error without opening any cursor
(the third component counts cursor contexts: 0 on the validation path). -/
def handler_create_client (db : DB) (nom email : String) :
    Except HTTPError Client × DB × Nat :=
  if validate_email email then
    let r := create_client db nom email
    (match r.1 with
      | Except.ok c => Except.ok c
      | Except.error e => Except.error ⟨500, e⟩, r.2.1, r.2.2)
  else
    (Except.error ⟨422, "Email invalide"⟩, db, 0)

theorem withCursor_units (commit : Bool) (body : DB → Except Err (α × DB)) (db : DB) :
    (withCursor commit body db).2.2 = 1 := by
  unfold withCursor
  cases h : body db with
  | ok v => obtain ⟨a, db2⟩ := v; rfl
  | error e => rfl

theorem ceilDiv_eq_ceil (t l : Nat) (hl : 0 < l) (ht : 0 < t) :
    ceilDiv t l = ⌈(t : ℚ) / (l : ℚ)⌉₊ := by
  have h1 : t + l - 1 = (t - 1) + l := by omega
  have hq : ceilDiv t l = (t - 1) / l + 1 := by
    unfold ceilDiv
    rw [h1, Nat.add_div_right _ hl]
  have hdm2 : (t - 1) / l * l + (t - 1) % l = t - 1 := Nat.div_add_mod' (t - 1) l
  have hml := Nat.mod_lt (t - 1) hl
  have hlq : (0 : ℚ) < (l : ℚ) := by exact_mod_cast hl
  symm
  rw [Nat.ceil_eq_iff (by rw [hq]; exact Nat.succ_ne_zero _)]
  constructor
  · rw [hq]
    simp only [Nat.add_sub_cancel]
    rw [lt_div_iff hlq]
    have hlt : (t - 1) / l * l < t := by omega
    exact_mod_cast hlt
  · rw [div_le_iff hlq, hq]
    have hmul : ((t - 1) / l + 1) * l = (t - 1) / l * l + l := by ring
    have hle : t ≤ ((t - 1) / l + 1) * l := by rw [hmul]; omega
    exact_mod_cast hle

/-- C1: for total = rows.length ≥ 0, page ≥ 1, limit ≥ 1, `paginate_query`
returns metadata `{total, page, limit, pages}` with
`pages = ceil(total/limit)` when total > 0 and `pages = 1` when total = 0;
the data window is `LIMIT limit OFFSET (page-1)*limit`; a page beyond the
last yields an empty result list (the metadata does not depend on `page`
except for its `page` field). -/
theorem paginate_query_correct (α : Type) (rows : List α) (page limit : Nat)
    (hp : 1 ≤ page) (hl : 1 ≤ limit) :
    (paginate_query rows rows.length page limit).2.total = rows.length ∧
    (paginate_query rows rows.length page limit).2.page = page ∧
    (paginate_query rows rows.length page limit).2.limit = limit ∧
    (0 < rows.length →
      (paginate_query rows rows.length page limit).2.pages =
        ⌈(rows.length : ℚ) / (limit : ℚ)⌉₊) ∧
    (rows.length = 0 → (paginate_query rows rows.length page limit).2.pages = 1) ∧
    (paginate_query rows rows.length page limit).1 =
      (rows.drop ((page - 1) * limit)).take limit ∧
    (rows.length ≤ (page - 1) * limit →
      (paginate_query rows rows.length page limit).1 = []) := by
  refine ⟨rfl, rfl, rfl, ?_, ?_, rfl, ?_⟩
  · intro ht
    show (if 0 < rows.length then ceilDiv rows.length limit else 1) = _
    rw [if_pos ht, ceilDiv_eq_ceil _ _ hl ht]
  · intro ht
    show (if 0 < rows.length then ceilDiv rows.length limit else 1) = 1
    rw [if_neg (by omega)]
  · intro hle
    show ((rows.drop ((page - 1) * limit)).take limit) = []
    rw [List.drop_eq_nil_of_le hle, List.take_nil]

/-- C1 witness: 25 rows, limit 10, page 4 is beyond the last page and yields
an empty result list. -/
theorem paginate_query_correct_witness :
    (paginate_query (List.range 25) (List.range 25).length 4 10).1 = [] :=
  (paginate_query_correct Nat (List.range 25) 4 10 (by decide)
    (by decide)).2.2.2.2.2.2 (by decide)

/-- C10: an exact-match integer filter passed as 0 is treated as absent by
the listing operations (Python truthiness of `if client_id:`): the result
and the pagination metadata are identical to the call with the filter
omitted. -/
theorem zero_filter_treated_absent (db : DB) (cid oid aid : Option Int)
    (mois : Option (Nat × Nat)) (page limit : Nat) :
    get_abonnements db (some 0) oid mois page limit =
      get_abonnements db none oid mois page limit ∧
    get_abonnements db cid (some 0) mois page limit =
      get_abonnements db cid none mois page limit ∧
    get_paiements db (some 0) cid oid mois page limit =
      get_paiements db none cid oid mois page limit ∧
    get_paiements db aid (some 0) oid mois page limit =
      get_paiements db aid none oid mois page limit ∧
    get_paiements db aid cid (some 0) mois page limit =
      get_paiements db aid cid none mois page limit :=
  ⟨rfl, rfl, rfl, rfl, rfl⟩

/-- C6: `delete_offre` returns false and removes nothing while a subscription
references the offer; `delete_abonnement` returns false and removes nothing
while a payment references the subscription; with no dependents left and the
row present, the same delete succeeds and returns true. -/
theorem delete_guard_correct (db : DB) (offre_id abonnement_id : Int) :
    ((∃ a ∈ db.abonnements, a.offre_id = offre_id) →
        delete_offre db offre_id = (Except.ok false, db, 1)) ∧
    ((∀ a ∈ db.abonnements, a.offre_id ≠ offre_id) →
      (∃ o ∈ db.offres, o.id = offre_id) →
        (delete_offre db offre_id).1 = Except.ok true ∧
        (delete_offre db offre_id).2.1 =
          { db with offres := db.offres.filter (fun o => !(o.id == offre_id)) }) ∧
    ((∃ p ∈ db.paiements, p.abonnement_id = abonnement_id) →
        delete_abonnement db abonnement_id = (Except.ok false, db, 1)) ∧
    ((∀ p ∈ db.paiements, p.abonnement_id ≠ abonnement_id) →
      (∃ a ∈ db.abonnements, a.id = abonnement_id) →
        (delete_abonnement db abonnement_id).1 = Except.ok true ∧
        (delete_abonnement db abonnement_id).2.1 =
          { db with abonnements :=
              db.abonnements.filter (fun a => !(a.id == abonnement_id)) }) := by
  refine ⟨?_, ?_, ?_, ?_⟩
  · rintro ⟨a, ha, haid⟩
    have hpos : 0 < (db.abonnements.filter (fun x => x.offre_id == offre_id)).length :=
      List.length_pos_of_mem (List.mem_filter.2 ⟨ha, by simp [haid]⟩)
    simp [delete_offre, withCursor, hpos]
  · intro hnone ⟨o, ho, hoid⟩
    have hnil : db.abonnements.filter (fun x => x.offre_id == offre_id) = [] := by
      rw [List.filter_eq_nil]
      intro a ha
      simp [hnone a ha]
    have hany : db.offres.any (fun o => o.id == offre_id) = true :=
      List.any_eq_true.2 ⟨o, ho, by simp [hoid]⟩
    constructor
    · simp [delete_offre, withCursor, hnil, hany]
    · simp [delete_offre, withCursor, hnil]
  · rintro ⟨p, hp, hpid⟩
    have hpos : 0 < (db.paiements.filter
        (fun x => x.abonnement_id == abonnement_id)).length :=
      List.length_pos_of_mem (List.mem_filter.2 ⟨hp, by simp [hpid]⟩)
    simp [delete_abonnement, withCursor, hpos]
  · intro hnone ⟨a, ha, haid⟩
    have hnil : db.paiements.filter (fun x => x.abonnement_id == abonnement_id) = [] := by
      rw [List.filter_eq_nil]
      intro p hp
      simp [hnone p hp]
    have hany : db.abonnements.any (fun a => a.id == abonnement_id) = true :=
      List.any_eq_true.2 ⟨a, ha, by simp [haid]⟩
    constructor
    · simp [delete_abonnement, withCursor, hnil, hany]
    · simp [delete_abonnement, withCursor, hnil]

/-- Store used to exercise the referential guards: offer 1 has a dependent
subscription, subscription 1 has a dependent payment; offer 2 and
subscription 2 are free of dependents. -/
def guardDb : DB :=
  { clients := [], offres := [⟨1, "A", none, none⟩, ⟨2, "B", none, none⟩],
    abonnements := [⟨1, 1, 1, ⟨2024, 1, 1⟩, none⟩, ⟨2, 1, 1, ⟨2024, 2, 1⟩, none⟩],
    paiements := [⟨1, 1, 10, ⟨2024, 1, 5⟩⟩], logs := [] }

/-- C6 witness: blocked and successful deletes on `guardDb`. -/
theorem delete_guard_correct_witness :
    delete_offre guardDb 1 = (Except.ok false, guardDb, 1) ∧
    (delete_offre guardDb 2).1 = Except.ok true ∧
    delete_abonnement guardDb 1 = (Except.ok false, guardDb, 1) ∧
    (delete_abonnement guardDb 2).1 = Except.ok true := by
  refine ⟨(delete_guard_correct guardDb 1 1).1 ?_,
    ((delete_guard_correct guardDb 2 2).2.1 ?_ ?_).1,
    (delete_guard_correct guardDb 1 1).2.2.1 ?_,
    ((delete_guard_correct guardDb 2 2).2.2.2 ?_ ?_).1⟩ <;> decide

/-- Store holding one offer whose optional fields are populated. -/
def offreDb : DB :=
  { clients := [], offres := [⟨1, "Fibre", some 5, some 10⟩],
    abonnements := [], paiements := [], logs := [] }

/-- C3 counterexample: `update_offre` performs no read-before-write — an
Offer update that omits the optional fields (passes them as None) persists
NULL where the stored values were 5 and 10, instead of falling back to the
current persisted values. -/
theorem update_offre_sets_omitted_to_null :
    offreDb.offres.map Offre.debit_mbps = [some 5] ∧
    (update_offre offreDb 1 "Fibre" none none).1 =
      Except.ok (some ⟨1, "Fibre", none, none⟩) ∧
    (update_offre offreDb 1 "Fibre" none none).2.1.offres.map Offre.debit_mbps =
      [none] :=
  ⟨rfl, rfl, rfl⟩


/-- C3 amended: for Subscription and Payment updates every omitted optional
field is resolved to the current persisted value (read-before-write), never
set to null — in particular updating only the amount of a Payment leaves its
payment date unchanged, both in the returned row and in the persisted row;
Offer updates, by contrast, write the supplied values directly, so an
omitted optional field becomes NULL (see the counterexample). -/
theorem update_partial_field_fallback (db : DB) (aid pid : Int)
    (cura : Abonnement) (curp : Paiement)
    (ha : db.abonnements.find? (fun a => a.id == aid) = some cura)
    (hp : db.paiements.find? (fun p => p.id == pid) = some curp)
    (oid : Option Int) (dd df : Option Date) (om : Option Int) (dp : Option Date) :
    (∀ r db2 n, update_abonnement db aid oid dd df = (Except.ok (some r), db2, n) →
      r.offre_id = oid.getD cura.offre_id ∧
      r.date_debut = dd.getD cura.date_debut ∧
      r.date_fin = (if df.isSome then df else cura.date_fin)) ∧
    (∀ r db2 n, update_paiement db pid om dp = (Except.ok (some r), db2, n) →
      r.montant = om.getD curp.montant ∧
      r.date_paiement = dp.getD curp.date_paiement) ∧
    (∀ r db2 n, update_paiement db pid om none = (Except.ok (some r), db2, n) →
      r.date_paiement = curp.date_paiement ∧
      (db2.paiements.find? (fun p => p.id == pid)).map Paiement.date_paiement =
        some curp.date_paiement) := by
  refine ⟨?_, ?_, ?_⟩
  · intro r db2 n hr
    simp [update_abonnement, withCursor, ha] at hr
    split at hr
    · rename_i a1 db21 heq
      split at heq
      · rename_i cn2 onom2 hnames
        simp only [Except.ok.injEq, Prod.mk.injEq] at heq
        obtain ⟨h1, h2⟩ := heq
        obtain ⟨ha1, hdb, hn⟩ := hr
        rw [← h1] at ha1
        simp only [Except.ok.injEq, Option.some.injEq] at ha1
        subst ha1
        exact ⟨rfl, rfl, rfl⟩
      · rename_i hnames
        simp at heq
    · rename_i e heq
      simp at hr
  · intro r db2 n hr
    simp [update_paiement, withCursor, hp] at hr
    split at hr
    · rename_i a1 db21 heq
      split at heq
      · rename_i cn2 onom2 hnames
        simp only [Except.ok.injEq, Prod.mk.injEq] at heq
        obtain ⟨h1, h2⟩ := heq
        obtain ⟨ha1, hdb, hn⟩ := hr
        rw [← h1] at ha1
        simp only [Except.ok.injEq, Option.some.injEq] at ha1
        subst ha1
        exact ⟨rfl, rfl⟩
      · rename_i hnames
        simp at heq
    · rename_i e heq
      simp at hr
  · intro r db2 n hr
    have hcurp := List.find?_some hp
    simp [update_paiement, withCursor, hp] at hr
    split at hr
    · rename_i a1 db21 heq
      split at heq
      · rename_i cn2 onom2 hnames
        simp only [Except.ok.injEq, Prod.mk.injEq] at heq
        obtain ⟨h1, h2⟩ := heq
        obtain ⟨ha1, hdb, hn⟩ := hr
        rw [← h1] at ha1
        simp only [Except.ok.injEq, Option.some.injEq] at ha1
        subst ha1
        refine ⟨rfl, ?_⟩
        rw [← hdb, ← h2]
        rw [List.find?_map]
        have hpred : ((fun p : Paiement => p.id == pid) ∘
            (fun p => if p.id = pid then
              (⟨pid, curp.abonnement_id, om.getD curp.montant,
                curp.date_paiement⟩ : Paiement) else p)) =
            (fun p : Paiement => p.id == pid) := by
          funext p
          by_cases h : p.id = pid <;> simp [h]
        rw [hpred, hp]
        simp at hcurp
        simp [hcurp]
      · rename_i hnames
        simp at heq
    · rename_i e heq
      simp at hr

/-- Store with a full client/offer/subscription/payment chain. -/
def chainDb : DB :=
  { clients := [⟨1, "C", "c@x.com"⟩], offres := [⟨1, "O", none, none⟩],
    abonnements := [⟨1, 1, 1, ⟨2024, 1, 1⟩, none⟩],
    paiements := [⟨1, 1, 100, ⟨2024, 3, 10⟩⟩], logs := [] }

/-- C3 witness: updating only the amount of payment 1 (100 → 250) leaves its
payment date 2024-03-10 unchanged, in the returned row and in the store. -/
theorem update_partial_field_fallback_witness :
    (⟨1, 1, 250, ⟨2024, 3, 10⟩, "C", "O"⟩ : PaiementDetail).date_paiement =
      (⟨1, 1, 100, ⟨2024, 3, 10⟩⟩ : Paiement).date_paiement ∧
    (({ chainDb with paiements := [⟨1, 1, 250, ⟨2024, 3, 10⟩⟩] } : DB).paiements.find?
        (fun p => p.id == 1)).map Paiement.date_paiement =
      some (⟨1, 1, 100, ⟨2024, 3, 10⟩⟩ : Paiement).date_paiement :=
  (update_partial_field_fallback chainDb 1 1 ⟨1, 1, 1, ⟨2024, 1, 1⟩, none⟩
    ⟨1, 1, 100, ⟨2024, 3, 10⟩⟩ rfl rfl none none none (some 250) none).2.2
    ⟨1, 1, 250, ⟨2024, 3, 10⟩, "C", "O"⟩
    { chainDb with paiements := [⟨1, 1, 250, ⟨2024, 3, 10⟩⟩] } 2 rfl

/-- Store where offer 1 has a dependent subscription and no offer 2 exists. -/
def offreDeleteDb : DB :=
  { clients := [], offres := [⟨1, "A", none, none⟩],
    abonnements := [⟨1, 7, 1, ⟨2024, 1, 1⟩, none⟩], paiements := [], logs := [] }

/-- C4 counterexample: a delete blocked by dependents (offer 1) and a delete
of a nonexistent id (offer 2) produce the SAME outward signal — the
repository reports only a bare boolean, the endpoint turns every `false`
into the 409 conflict message, and the blanket except re-wraps it as 500 —
so the two outcomes are not distinguishable at the external boundary. -/
theorem delete_outcomes_same_signal :
    (handler_delete_offre offreDeleteDb 1).1 = (handler_delete_offre offreDeleteDb 2).1 ∧
    (handler_delete_offre offreDeleteDb 1).1 =
      Except.error ⟨500, excStr (Exc.http ⟨409, offreConflictMsg⟩)⟩ :=
  ⟨rfl, rfl⟩

/-- C4 amended: for Offer and Subscription deletes, a nonexistent id and a
delete blocked by dependents both make the repository return false, and the
boundary maps every false to one and the same outward signal (a 500 wrapping
the 409 conflict message), so the two outcomes are not distinguishable. -/
theorem delete_boundary_collapse (db : DB) (offre_id abonnement_id : Int)
    (ho : (delete_offre db offre_id).1 = Except.ok false)
    (ha : (delete_abonnement db abonnement_id).1 = Except.ok false) :
    (handler_delete_offre db offre_id).1 =
      Except.error ⟨500, excStr (Exc.http ⟨409, offreConflictMsg⟩)⟩ ∧
    (handler_delete_abonnement db abonnement_id).1 =
      Except.error ⟨500, excStr (Exc.http ⟨409, abonConflictMsg⟩)⟩ := by
  constructor
  · simp [handler_delete_offre, ho, wrap500]
  · simp [handler_delete_abonnement, ha, wrap500]

/-- C4 witness: offer 1 is blocked (dependent subscription), subscription 5
does not exist; both deletes surface the collapsed signal. -/
theorem delete_boundary_collapse_witness :
    (handler_delete_offre offreDeleteDb 1).1 =
      Except.error ⟨500, excStr (Exc.http ⟨409, offreConflictMsg⟩)⟩ ∧
    (handler_delete_abonnement offreDeleteDb 5).1 =
      Except.error ⟨500, excStr (Exc.http ⟨409, abonConflictMsg⟩)⟩ :=
  delete_boundary_collapse offreDeleteDb 1 5 rfl rfl

/-- Store with one subscription, used by the unit-of-work analysis. -/
def abonUpdateDb : DB :=
  { clients := [⟨1, "C", "c@x.com"⟩], offres := [⟨1, "O", none, none⟩],
    abonnements := [⟨1, 1, 1, ⟨2024, 1, 1⟩, none⟩], paiements := [], logs := [] }

/-- C5 counterexample: `update_abonnement` of an existing row opens TWO
cursor contexts per call (the read-before-write runs in its own unit of
work), so not every mutating operation executes as a single unit of work. -/
theorem update_abonnement_two_units :
    (update_abonnement abonUpdateDb 1 none none none).2.2 = 2 := rfl

theorem withCursor_read (f : DB → α) (db : DB) :
    withCursor false (fun db => Except.ok (f db, db)) db = (Except.ok (f db), db, 1) := rfl

/-- C5 amended: every mutating repository operation performs its write (and
the guard check preceding a guarded delete) within a single unit of work;
the Subscription and Payment updates additionally run their read-before-write
in a separate preceding read-only unit of work (2 cursor contexts when the
row exists, 1 otherwise); every store failure inside a unit of work rolls the
unit back — the store is restored to its state at the start of the unit —
and the same error propagates without any retry. -/
theorem mutation_units_and_rollback (db : DB) (α : Type)
    (body : DB → Except Err (α × DB)) (e : Err) (commit : Bool)
    (hb : body db = Except.error e)
    (nom email : String) (cid oid aid pid : Int) (d : Date) (fin : Option Date)
    (ob op om : Option Int) (odd odf odp : Option Date) (m : Int) :
    withCursor commit body db = (Except.error e, db, 1) ∧
    (create_client db nom email).2.2 = 1 ∧
    (update_client db cid nom email).2.2 = 1 ∧
    (delete_client db cid).2.2 = 1 ∧
    (create_offre db nom ob op).2.2 = 1 ∧
    (update_offre db oid nom ob op).2.2 = 1 ∧
    (delete_offre db oid).2.2 = 1 ∧
    (create_abonnement db cid oid d fin).2.2 = 1 ∧
    (delete_abonnement db aid).2.2 = 1 ∧
    (create_paiement db aid m d).2.2 = 1 ∧
    (delete_paiement db pid).2.2 = 1 ∧
    (update_abonnement db aid ob odd odf).2.2 =
      (if (db.abonnements.find? (fun a => a.id == aid)).isSome then 2 else 1) ∧
    (update_paiement db pid om odp).2.2 =
      (if (db.paiements.find? (fun p => p.id == pid)).isSome then 2 else 1) := by
  refine ⟨by simp [withCursor, hb], withCursor_units _ _ _, withCursor_units _ _ _,
    withCursor_units _ _ _, withCursor_units _ _ _, withCursor_units _ _ _,
    withCursor_units _ _ _, withCursor_units _ _ _, withCursor_units _ _ _,
    withCursor_units _ _ _, withCursor_units _ _ _, ?_, ?_⟩
  · cases hf : db.abonnements.find? (fun a => a.id == aid) with
    | none => simp [update_abonnement, withCursor_read, hf]
    | some cur => simp [update_abonnement, withCursor_read, hf, withCursor_units]
  · cases hf : db.paiements.find? (fun p => p.id == pid) with
    | none => simp [update_paiement, withCursor_read, hf]
    | some cur => simp [update_paiement, withCursor_read, hf, withCursor_units]

/-- C5 witness: a failing body is rolled back and propagated unchanged, and
on `abonUpdateDb` the subscription update uses two cursor contexts. -/
theorem mutation_units_and_rollback_witness :
    withCursor true (fun _ : DB => (Except.error "boom" : Except Err (Bool × DB)))
      abonUpdateDb = (Except.error "boom", abonUpdateDb, 1) ∧
    (update_abonnement abonUpdateDb 1 none none none).2.2 =
      (if (abonUpdateDb.abonnements.find? (fun a => a.id == 1)).isSome then 2 else 1) := by
  have h := mutation_units_and_rollback abonUpdateDb Bool (fun _ => Except.error "boom")
    "boom" true rfl "N" "n@x.com" 1 1 1 1 ⟨2024, 1, 1⟩ none none none none none none none 5
  exact ⟨h.1, h.2.2.2.2.2.2.2.2.2.2.2.1⟩

theorem addClause_shared (cond : Bool) (clause : String) (ps2 : List Param)
    (st : String × String × List Param) (qb cb w : String)
    (h1 : st.1 = qb ++ w) (h2 : st.2.1 = cb ++ w) :
    ∃ w2, (addClause cond clause ps2 st).1 = qb ++ w2 ∧
          (addClause cond clause ps2 st).2.1 = cb ++ w2 := by
  cases cond with
  | false => exact ⟨w, h1, h2⟩
  | true =>
      refine ⟨w ++ clause, ?_, ?_⟩ <;>
        simp [addClause, h1, h2, String.append_assoc]

/-- C2: for every listing operation and every filter combination, the data
query and the count query consist of their respective base texts extended by
one identical WHERE fragment, and they share the one parameter list built
alongside (there is a single list, used for both executions); the pagination
step extends the data query by `LIMIT %s OFFSET %s` and appends only the
`limit` and `offset` parameters at the end; consequently `pagination.total`
is the number of rows matching exactly the filter of the returned page. -/
theorem count_and_data_share_filter :
    (∀ search, ∃ w ps, get_clients_queries search =
      ("SELECT * FROM clients" ++ w ++ " ORDER BY id DESC",
       "SELECT COUNT(*) as count FROM clients" ++ w, ps)) ∧
    (∀ search, ∃ w ps, get_offres_queries search =
      ("SELECT * FROM offres" ++ w ++ " ORDER BY id DESC",
       "SELECT COUNT(*) as count FROM offres" ++ w, ps)) ∧
    (∀ cid oid mois, ∃ w ps, get_abonnements_queries cid oid mois =
      (abonBaseQuery ++ w ++ " ORDER BY a.date_debut DESC", abonBaseCount ++ w, ps)) ∧
    (∀ aid cid oid mois, ∃ w ps, get_paiements_queries aid cid oid mois =
      (paiementBaseQuery ++ w ++ " ORDER BY p.date_paiement DESC",
       paiementBaseCount ++ w, ps)) ∧
    (∀ table, ∃ w ps, get_logs_queries table =
      ("SELECT * FROM logs" ++ w ++ " ORDER BY date_action DESC",
       "SELECT COUNT(*) as count FROM logs" ++ w, ps)) ∧
    (∀ q ps page limit, paginate_build q ps page limit =
      (q ++ " LIMIT %s OFFSET %s",
       ps ++ [Param.int (Int.ofNat limit), Param.int (Int.ofNat ((page - 1) * limit))])) ∧
    (∀ db cid oid mois page limit,
      (get_abonnements db cid oid mois page limit).2.total =
        (get_abonnements_matching db cid oid mois).length) ∧
    (∀ db aid cid oid mois page limit,
      (get_paiements db aid cid oid mois page limit).2.total =
        (get_paiements_matching db aid cid oid mois).length) := by
  refine ⟨?_, ?_, ?_, ?_, ?_, ?_, ?_, ?_⟩
  · intro search
    obtain ⟨w1, h11, h12⟩ := addClause_shared (truthyStr search)
      " WHERE nom ILIKE %s OR email ILIKE %s"
      [Param.str ("%" ++ search.getD "" ++ "%"), Param.str ("%" ++ search.getD "" ++ "%")]
      ("SELECT * FROM clients", "SELECT COUNT(*) as count FROM clients", ([] : List Param))
      "SELECT * FROM clients" "SELECT COUNT(*) as count FROM clients" ""
      (String.append_empty _).symm (String.append_empty _).symm
    exact ⟨w1, _, by simp only [get_clients_queries, h11, h12]; rfl⟩
  · intro search
    obtain ⟨w1, h11, h12⟩ := addClause_shared (truthyStr search) " WHERE nom ILIKE %s"
      [Param.str ("%" ++ search.getD "" ++ "%")]
      ("SELECT * FROM offres", "SELECT COUNT(*) as count FROM offres", ([] : List Param))
      "SELECT * FROM offres" "SELECT COUNT(*) as count FROM offres" ""
      (String.append_empty _).symm (String.append_empty _).symm
    exact ⟨w1, _, by simp only [get_offres_queries, h11, h12]; rfl⟩
  · intro cid oid mois
    obtain ⟨w1, h11, h12⟩ := addClause_shared (truthyInt cid) " AND a.client_id = %s"
      [Param.int (cid.getD 0)] (abonBaseQuery, abonBaseCount, ([] : List Param))
      abonBaseQuery abonBaseCount ""
      (String.append_empty _).symm (String.append_empty _).symm
    obtain ⟨w2, h21, h22⟩ := addClause_shared (truthyInt oid) " AND a.offre_id = %s"
      [Param.int (oid.getD 0)] _ abonBaseQuery abonBaseCount w1 h11 h12
    obtain ⟨w3, h31, h32⟩ := addClause_shared (truthyStr mois)
      " AND TO_CHAR(a.date_debut, \x27YYYY-MM\x27) = %s"
      [Param.str (mois.getD "")] _ abonBaseQuery abonBaseCount w2 h21 h22
    exact ⟨w3, _, by simp only [get_abonnements_queries, h31, h32]; rfl⟩
  · intro aid cid oid mois
    obtain ⟨w1, h11, h12⟩ := addClause_shared (truthyInt aid) " AND p.abonnement_id = %s"
      [Param.int (aid.getD 0)] (paiementBaseQuery, paiementBaseCount, ([] : List Param))
      paiementBaseQuery paiementBaseCount ""
      (String.append_empty _).symm (String.append_empty _).symm
    obtain ⟨w2, h21, h22⟩ := addClause_shared (truthyInt cid) " AND a.client_id = %s"
      [Param.int (cid.getD 0)] _ paiementBaseQuery paiementBaseCount w1 h11 h12
    obtain ⟨w3, h31, h32⟩ := addClause_shared (truthyInt oid) " AND a.offre_id = %s"
      [Param.int (oid.getD 0)] _ paiementBaseQuery paiementBaseCount w2 h21 h22
    obtain ⟨w4, h41, h42⟩ := addClause_shared (truthyStr mois)
      " AND TO_CHAR(p.date_paiement, \x27YYYY-MM\x27) = %s"
      [Param.str (mois.getD "")] _ paiementBaseQuery paiementBaseCount w3 h31 h32
    exact ⟨w4, _, by simp only [get_paiements_queries, h41, h42]; rfl⟩
  · intro table
    obtain ⟨w1, h11, h12⟩ := addClause_shared (truthyStr table) " WHERE table_modifiee = %s"
      [Param.str (table.getD "")]
      ("SELECT * FROM logs", "SELECT COUNT(*) as count FROM logs", ([] : List Param))
      "SELECT * FROM logs" "SELECT COUNT(*) as count FROM logs" ""
      (String.append_empty _).symm (String.append_empty _).symm
    exact ⟨w1, _, by simp only [get_logs_queries, h11, h12]; rfl⟩
  · intro q ps page limit
    rfl
  · intro db cid oid mois page limit
    rfl
  · intro db aid cid oid mois page limit
    rfl

/-- The empty store. -/
def emptyDb : DB :=
  { clients := [], offres := [], abonnements := [], paiements := [], logs := [] }

/-- Store holding only client 1. -/
def clientOnlyDb : DB :=
  { clients := [⟨1, "C", "c@x.com"⟩], offres := [], abonnements := [],
    paiements := [], logs := [] }

/-- C7: the boundary does check that the referenced client and offer exist
before the insert or update reaches the store (the store is untouched on
each failing path below), and it raises HTTPException(404) — but the blanket
`except Exception as e: raise HTTPException(500, str(e))` catches that
HTTPException, so the outward signal is a 500 generic error wrapping the
404, not a not-found-equivalent signal. -/
theorem abonnement_reference_check_wrapped_500 :
    handler_create_abonnement emptyDb 1 1 ⟨2024, 1, 1⟩ none =
      (Except.error ⟨500, excStr (Exc.http ⟨404, "Client non trouvé"⟩)⟩, emptyDb) ∧
    handler_create_abonnement clientOnlyDb 1 2 ⟨2024, 1, 1⟩ none =
      (Except.error ⟨500, excStr (Exc.http ⟨404, "Offre non trouvée"⟩)⟩, clientOnlyDb) ∧
    handler_update_abonnement emptyDb 1 (some 3) none none =
      (Except.error ⟨500, excStr (Exc.http ⟨404, "Offre non trouvée"⟩)⟩, emptyDb) :=
  ⟨rfl, rfl, rfl⟩

theorem spanP_append (p : Char → Bool) (l : List Char) (c : Char) (r : List Char)
    (hl : ∀ x ∈ l, p x = true) (hc : p c = false) :
    spanP p (l ++ c :: r) = (l, c :: r) := by
  induction l with
  | nil => simp [spanP, hc]
  | cons a as ih =>
      have ha : p a = true := hl a (List.mem_cons_self a as)
      have hrest : ∀ x ∈ as, p x = true := fun x hx => hl x (List.mem_cons_of_mem a hx)
      simp [spanP, ha, ih hrest]

theorem spanP_eq_append (p : Char → Bool) (l : List Char) :
    (spanP p l).1 ++ (spanP p l).2 = l := by
  induction l with
  | nil => rfl
  | cons a as ih =>
      cases h : p a with
      | true => simp [spanP, h, ih]
      | false => simp [spanP, h]

theorem spanP_fst_all (p : Char → Bool) (l : List Char) :
    ∀ x ∈ (spanP p l).1, p x = true := by
  induction l with
  | nil => intro x hx; simp [spanP] at hx
  | cons a as ih =>
      cases h : p a with
      | true =>
          intro x hx
          simp only [spanP, h, if_true] at hx
          rcases List.mem_cons.1 hx with rfl | hx2
          · exact h
          · exact ih x hx2
      | false => intro x hx; simp [spanP, h] at hx

theorem email_iff (s : List Char) : emailOk s = true ↔ EmailShape s := by
  constructor
  · intro h
    unfold emailOk at h
    rcases hsp : spanP isLocalChar s with ⟨l, rest⟩
    rw [hsp] at h
    cases rest with
    | nil => simp at h
    | cons c rest2 =>
        simp only [Bool.and_eq_true, beq_iff_eq, Bool.not_eq_true'] at h
        obtain ⟨⟨hat, hne⟩, hdom⟩ := h
        subst hat
        unfold domainTailOk at hdom
        rcases hsp2 : spanP (fun c => !(c == '.')) rest2.reverse with ⟨trev, rest3⟩
        rw [hsp2] at hdom
        cases rest3 with
        | nil => simp at hdom
        | cons c2 drev =>
            simp only [Bool.and_eq_true, beq_iff_eq, Bool.not_eq_true',
              decide_eq_true_eq, List.all_eq_true] at hdom
            obtain ⟨⟨⟨⟨hdot, hdne⟩, hdchars⟩, htchars⟩, htlen⟩ := hdom
            subst hdot
            refine ⟨l, drev.reverse, trev.reverse, ?_, ?_, ?_, ?_, ?_, ?_, ?_⟩
            · have h1 : l ++ '@' :: rest2 = s := by
                have h0 := spanP_eq_append isLocalChar s
                rw [hsp] at h0
                exact h0
              have h2 : trev ++ '.' :: drev = rest2.reverse := by
                have h0 := spanP_eq_append (fun c => !(c == '.')) rest2.reverse
                rw [hsp2] at h0
                exact h0
              have h3 : rest2 = drev.reverse ++ '.' :: trev.reverse := by
                have h4 := congrArg List.reverse h2
                simp only [List.reverse_append, List.reverse_cons,
                  List.reverse_reverse] at h4
                rw [← h4]
                simp
              rw [← h1, h3]
            · intro hl0
              subst hl0
              simp at hne
            · intro x hx
              have h0 := spanP_fst_all isLocalChar s
              rw [hsp] at h0
              exact h0 x hx
            · intro hd0
              rw [hd0] at hdne
              simp at hdne
            · intro x hx
              exact hdchars x hx
            · intro x hx
              exact htchars x hx
            · exact htlen
  · rintro ⟨l, d, t, rfl, hl0, hlchars, hd0, hdchars, htchars, htlen⟩
    have hat : isLocalChar '@' = false := by decide
    have hne : l.isEmpty = false := by
      cases l with
      | nil => exact absurd rfl hl0
      | cons a as => rfl
    have hrev : (d ++ '.' :: t).reverse = t.reverse ++ '.' :: d.reverse := by
      simp
    have htdot : ∀ x ∈ t.reverse, (!(x == '.')) = true := by
      intro x hx
      rw [List.mem_reverse] at hx
      have hxa := htchars x hx
      cases hbe : x == '.' with
      | true =>
          have hxd : x = '.' := beq_iff_eq.1 hbe
          subst hxd
          simp at hxa
      | false => simp
    have hdotf : (!(('.' : Char) == '.')) = false := by decide
    have hdt : domainTailOk (d ++ '.' :: t) = true := by
      unfold domainTailOk
      rw [hrev, spanP_append (fun c => !(c == '.')) t.reverse '.' d.reverse htdot hdotf]
      show ((('.' : Char) == '.') && !(d.reverse.reverse.isEmpty) &&
        d.reverse.reverse.all isDomainChar && t.reverse.reverse.all Char.isAlpha &&
        decide (2 ≤ t.reverse.reverse.length)) = true
      simp only [List.reverse_reverse, Bool.not_false, Bool.and_true, Bool.true_and,
        List.all_eq_true, decide_eq_true_eq, beq_self_eq_true, Bool.and_eq_true]
      have hdne : (!d.isEmpty) = true := by
        cases d with
        | nil => exact absurd rfl hd0
        | cons a as => rfl
      exact ⟨⟨⟨hdne, hdchars⟩, htchars⟩, htlen⟩
    unfold emailOk
    rw [spanP_append isLocalChar l '@' (d ++ '.' :: t) hlchars hat]
    show ((('@' : Char) == '@') && !(l.isEmpty) && domainTailOk (d ++ '.' :: t)) = true
    simp [hne, hdt]

/-- C9 counterexample: the email validation does NOT accept exactly the
strings of the shape local-part@domain.tld — the `$` of the Python regex
also matches just before one trailing newline, so `validate_email` accepts
"a@b.com" followed by a newline, a string that is not of that shape (its
last character is a newline, which belongs to no class of the pattern). -/
theorem email_trailing_newline_accepted :
    validate_email "a@b.com\n" = true ∧ ¬ EmailShape "a@b.com\n".toList :=
  ⟨by decide, fun h => absurd ((email_iff "a@b.com\n".toList).mpr h) (by decide)⟩

/-- C9 amended: `validate_email` accepts exactly the strings of the shape
local-part@domain.tld — a nonempty run of local-part characters, `@`, a
nonempty run of domain characters, a dot, and a TLD of at least two letters
(the language of the regex in models.py:9) — OPTIONALLY followed by one
trailing newline, which the `$` anchor of Python re also accepts; so
"a@b.com" is accepted (and so is "a@b.com" plus a newline, see the
counterexample) and "not-an-email" is rejected; a client create with an
invalid email is rejected with the 422 validation signal before any
repository or store call: the store is untouched and zero cursor contexts
are opened. -/
theorem email_validation_boundary (s : String) (db : DB) (nom email : String)
    (hbad : validate_email email = false) :
    (validate_email s = true ↔
      (EmailShape s.toList ∨
        (s.toList.getLast? = some '\n' ∧ EmailShape s.toList.dropLast))) ∧
    validate_email "a@b.com" = true ∧
    validate_email "not-an-email" = false ∧
    handler_create_client db nom email = (Except.error ⟨422, "Email invalide"⟩, db, 0) := by
  refine ⟨?_, by decide, by decide, ?_⟩
  · constructor
    · intro h
      simp only [validate_email, Bool.or_eq_true, Bool.and_eq_true, beq_iff_eq] at h
      rcases h with h1 | ⟨hl, he⟩
      · exact Or.inl ((email_iff _).mp h1)
      · exact Or.inr ⟨hl, (email_iff _).mp he⟩
    · intro h
      simp only [validate_email, Bool.or_eq_true, Bool.and_eq_true, beq_iff_eq]
      rcases h with h1 | ⟨hl, he⟩
      · exact Or.inl ((email_iff _).mpr h1)
      · exact Or.inr ⟨hl, (email_iff _).mpr he⟩
  · simp [handler_create_client, hbad]

/-- C9 witness: the characterisation at "a@b.com", and the rejection path of
"not-an-email" on the empty store. -/
theorem email_validation_boundary_witness :
    (validate_email "a@b.com" = true ↔
      (EmailShape "a@b.com".toList ∨
        ("a@b.com".toList.getLast? = some '\n' ∧ EmailShape "a@b.com".toList.dropLast))) ∧
    validate_email "a@b.com" = true ∧
    validate_email "not-an-email" = false ∧
    handler_create_client emptyDb "N" "not-an-email" =
      (Except.error ⟨422, "Email invalide"⟩, emptyDb, 0) :=
  email_validation_boundary "a@b.com" emptyDb "N" "not-an-email" (by decide)

/-- C8: with a month filter denoting year `y` and month `m` (the value of a
`YYYY-MM` string), a subscription row joined with its client and offer is in
the matching set — and counted in `pagination.total` — exactly when the
calendar year and month of its `date_debut` equal the filter, regardless of
the day component (the filter predicate ignores the day); likewise a payment
row on `date_paiement`. -/
theorem month_filter_calendar_month (db : DB) (y m : Nat)
    (a : Abonnement) (c : Client) (o : Offre)
    (hmem : a ∈ db.abonnements)
    (hc : findClient db a.client_id = some c)
    (ho : findOffre db a.offre_id = some o)
    (p : Paiement) (ab : Abonnement) (pc : Client) (po : Offre)
    (hpmem : p ∈ db.paiements)
    (hab : findAbonnement db p.abonnement_id = some ab)
    (hpc : findClient db ab.client_id = some pc)
    (hpo : findOffre db ab.offre_id = some po) :
    ((⟨a.id, a.client_id, a.offre_id, a.date_debut, a.date_fin, c.nom, o.nom⟩ :
        AbonnementDetail) ∈ get_abonnements_matching db none none (some (y, m)) ↔
      (a.date_debut.year = y ∧ a.date_debut.month = m)) ∧
    (∀ page limit, (get_abonnements db none none (some (y, m)) page limit).2.total =
      (get_abonnements_matching db none none (some (y, m))).length) ∧
    (∀ d2, abonFilter none none (some (y, m)) a =
      abonFilter none none (some (y, m))
        ⟨a.id, a.client_id, a.offre_id,
          ⟨a.date_debut.year, a.date_debut.month, d2⟩, a.date_fin⟩) ∧
    (paiementProj (p, ab, pc, po) ∈
        get_paiements_matching db none none none (some (y, m)) ↔
      (p.date_paiement.year = y ∧ p.date_paiement.month = m)) ∧
    (∀ d2, paiementFilter none none none (some (y, m)) (p, ab, pc, po) =
      paiementFilter none none none (some (y, m))
        (⟨p.id, p.abonnement_id, p.montant,
          ⟨p.date_paiement.year, p.date_paiement.month, d2⟩⟩, ab, pc, po)) ∧
    (∀ page limit, (get_paiements db none none none (some (y, m)) page limit).2.total =
      (get_paiements_matching db none none none (some (y, m))).length) := by
  refine ⟨⟨?_, ?_⟩, fun page limit => rfl, fun d2 => rfl, ⟨?_, ?_⟩,
    fun d2 => rfl, fun page limit => rfl⟩
  · intro hin
    obtain ⟨x, hx, hjoin⟩ := List.mem_filterMap.1 hin
    obtain ⟨hxmem, hF⟩ := List.mem_filter.1 hx
    unfold abonJoin at hjoin
    split at hjoin
    · rename_i c2 o2 hfc hfo
      simp only [Option.some.injEq, AbonnementDetail.mk.injEq] at hjoin
      obtain ⟨h1, h2, h3, h4, h5, h6, h7⟩ := hjoin
      simp [abonFilter, truthyInt, truthyYM, Date.yearMonth] at hF
      rw [h4] at hF
      exact hF
    · rename_i hother
      simp at hjoin
  · intro hym
    apply List.mem_filterMap.2
    refine ⟨a, List.mem_filter.2 ⟨hmem, ?_⟩, ?_⟩
    · simp [abonFilter, truthyInt, truthyYM, Date.yearMonth, hym.1, hym.2]
    · unfold abonJoin
      rw [hc, ho]
  · intro hin
    obtain ⟨j, hj, hproj⟩ := List.mem_map.1 hin
    obtain ⟨hjmem, hF⟩ := List.mem_filter.1 hj
    simp only [paiementProj, PaiementDetail.mk.injEq] at hproj
    obtain ⟨h1, h2, h3, h4, h5, h6⟩ := hproj
    simp [paiementFilter, truthyInt, truthyYM, Date.yearMonth] at hF
    rw [h4] at hF
    exact hF
  · intro hym
    apply List.mem_map.2
    refine ⟨(p, ab, pc, po), List.mem_filter.2 ⟨?_, ?_⟩, rfl⟩
    · apply List.mem_filterMap.2
      refine ⟨p, hpmem, ?_⟩
      simp only [paiementJoin, hab, hpc, hpo]
    · simp [paiementFilter, truthyInt, truthyYM, Date.yearMonth, hym.1, hym.2]

/-- Store whose subscription and payment both sit in March 2024. -/
def monthDb : DB :=
  { clients := [⟨1, "C", "c@x.com"⟩], offres := [⟨1, "O", none, none⟩],
    abonnements := [⟨1, 1, 1, ⟨2024, 3, 15⟩, none⟩],
    paiements := [⟨1, 1, 100, ⟨2024, 3, 10⟩⟩], logs := [] }

/-- C8 witness: with filter 2024-03, the March subscription and payment of
`monthDb` are in the matching sets. -/
theorem month_filter_calendar_month_witness :
    (⟨1, 1, 1, ⟨2024, 3, 15⟩, none, "C", "O"⟩ : AbonnementDetail) ∈
      get_abonnements_matching monthDb none none (some (2024, 3)) ∧
    paiementProj (⟨1, 1, 100, ⟨2024, 3, 10⟩⟩, ⟨1, 1, 1, ⟨2024, 3, 15⟩, none⟩,
        ⟨1, "C", "c@x.com"⟩, ⟨1, "O", none, none⟩) ∈
      get_paiements_matching monthDb none none none (some (2024, 3)) := by
  have h := month_filter_calendar_month monthDb 2024 3
    ⟨1, 1, 1, ⟨2024, 3, 15⟩, none⟩ ⟨1, "C", "c@x.com"⟩ ⟨1, "O", none, none⟩
    (by decide) rfl rfl
    ⟨1, 1, 100, ⟨2024, 3, 10⟩⟩ ⟨1, 1, 1, ⟨2024, 3, 15⟩, none⟩
    ⟨1, "C", "c@x.com"⟩ ⟨1, "O", none, none⟩
    (by decide) rfl rfl rfl
  exact ⟨h.1.mpr ⟨rfl, rfl⟩, h.2.2.2.1.mpr ⟨rfl, rfl⟩⟩
